import Mathlib

/-!
Shallow embedding of the RiceGuard AI backend (FastAPI + YOLO wrapper).

The embedding covers:
* `utils/predict.py` — the primary model wrapper (`predict_disease`,
  `DISEASE_INFO`), box-count severity policy;
* `backend/utils/predict.py` — the alternate JSON-file-history backend
  flavour (`predict_disease_v2`, `DISEASE_INFO_V2`), confidence-based
  severity policy;
* `app.py` — the `/detect`, `/history`, `/delete/{id}` and `/chatbot`
  endpoints, with file-system and database effects made explicit.

Machine floats are idealised as rationals; external effects (model
inference, file writes, database commits) are explicit parameters or
returned effect lists.
-/

namespace RiceGuard

/-- One YOLO bounding box: class id and confidence in [0,1].
Models one element of `results.boxes` (fields `cls`, `conf`). -/
structure Box where
  cls : Nat
  conf : ℚ
deriving Repr, DecidableEq

/-- The object returned by `model(image_path, ...)[0]` in ultralytics:
`boxes` is `None` or a list of boxes; `names` maps class ids to names. -/
structure YoloResults where
  boxes : Option (List Box)
  names : Nat → String

/-- One per-severity entry of `DISEASE_INFO`: a Python dict with exactly
the keys `symptoms`, `treatment`, `prevention`. -/
structure SeverityInfo where
  symptoms : List String
  treatment : List String
  prevention : List String
deriving Repr, DecidableEq

/-- Dict-style lookup on a `SeverityInfo`, modelling `info[key]` /
`key in info` on the three-key Python dict. -/
def infoGet (info : SeverityInfo) : String → Option (List String)
  | "symptoms" => some info.symptoms
  | "treatment" => some info.treatment
  | "prevention" => some info.prevention
  | _ => none

/-- Value of `DISEASE_INFO["Healthy"]["None"]["prevention"]` in `utils/predict.py`. -/
def healthyPrevention : List String :=
  ["Maintain proper irrigation", "Balanced fertilizer usage",
   "Regular crop monitoring", "Good field hygiene"]

/-- Embeds `DISEASE_INFO` from `utils/predict.py` (the nested
disease -> severity -> info dictionary), in Python insertion order. -/
def DISEASE_INFO : List (String × List (String × SeverityInfo)) :=
  [("Healthy",
    [("None", ⟨[], [], healthyPrevention⟩)]),
   ("Rice Blast",
    [("Mild",
      ⟨["Small diamond-shaped lesions", "Grey centers on leaves",
        "Limited spread", "Normal plant vigor"],
       ["Monitor disease progression", "Preventive fungicide spray",
        "Avoid excess nitrogen", "Improve drainage"],
       ["Use resistant varieties", "Balanced fertilization",
        "Proper plant spacing", "Routine field inspection"]⟩),
     ("Moderate",
      ⟨["Larger lesions on multiple leaves", "Leaf tip drying",
        "Reduced photosynthesis", "Moderate yield loss"],
       ["Spray Tricyclazole", "Maintain standing water",
        "Remove infected plants", "Apply potassium fertilizer"],
       ["Seed treatment", "Crop rotation",
        "Avoid dense planting", "Timely sowing"]⟩),
     ("Severe",
      ⟨["Neck blast infection", "Panicle breakage",
        "Severe stunting", "High yield loss"],
       ["Immediate fungicide spraying", "Multiple spray schedule",
        "Destroy severely infected crop", "Consult agriculture expert"],
       ["Blast-resistant hybrids", "Strict nitrogen control",
        "Field sanitation", "Avoid infected fields"]⟩)]),
   ("Blight",
    [("Mild",
      ⟨["Light yellow streaks", "Minor leaf wilting",
        "Small water-soaked lesions", "Normal tillering"],
       ["Monitor spread", "Remove infected leaves",
        "Improve drainage", "Avoid excess nitrogen"],
       ["Certified seeds", "Balanced nutrition",
        "Proper spacing", "Crop rotation"]⟩),
     ("Moderate",
      ⟨["Extended yellow-orange streaks", "Leaf rolling",
        "Reduced tillers", "Yield reduction"],
       ["Copper-based bactericide", "Remove infected plants",
        "Improve water management", "Reduce nitrogen input"],
       ["Resistant varieties", "Field sanitation",
        "Weed control", "Seed treatment"]⟩),
     ("Severe",
      ⟨["Complete leaf drying", "Severe wilting",
        "Panicle sterility", "Major yield loss"],
       ["Immediate bactericide application", "Destroy infected crop",
        "Prevent further spread", "Expert consultation"],
       ["Disease-free seeds", "Avoid contaminated irrigation",
        "Strict field hygiene", "Crop rotation"]⟩)]),
   ("Brown Spot",
    [("Mild",
      ⟨["Small brown spots", "Yellow halos",
        "No grain impact", "Normal growth"],
       ["Improve soil nutrition", "Light fungicide spray",
        "Monitor field", "Avoid moisture stress"],
       ["Balanced fertilization", "Seed treatment",
        "Good drainage", "Healthy seedlings"]⟩),
     ("Moderate",
      ⟨["Larger circular lesions", "Leaf drying at tips",
        "Reduced grain quality", "Yield reduction"],
       ["Spray Mancozeb", "Correct nutrient deficiency",
        "Remove infected leaves", "Improve irrigation"],
       ["Resistant varieties", "Crop rotation",
        "Soil health management", "Regular monitoring"]⟩),
     ("Severe",
      ⟨["Heavy leaf spotting", "Complete leaf drying",
        "Poor grain filling", "Severe yield loss"],
       ["Immediate fungicide spraying", "Remove infected plants",
        "Soil correction", "Expert advice"],
       ["Balanced soil nutrients", "Seed treatment",
        "Avoid drought stress", "Field sanitation"]⟩)]),
   ("False Smut",
    [("Mild",
      ⟨["Few green smut balls", "Limited panicle infection",
        "Normal grain formation", "No yield impact"],
       ["Field monitoring", "Avoid excess nitrogen",
        "Improve aeration", "No immediate chemical spray"],
       ["Disease-free seeds", "Balanced fertilization",
        "Proper drainage", "Timely sowing"]⟩),
     ("Moderate",
      ⟨["Yellow smut balls", "Multiple panicles affected",
        "Partial grain replacement", "Yield reduction"],
       ["Spray Propiconazole", "Remove infected panicles",
        "Reduce nitrogen", "Improve spacing"],
       ["Crop rotation", "Resistant varieties",
        "Field sanitation", "Timely planting"]⟩),
     ("Severe",
      ⟨["Black smut balls", "Most panicles infected",
        "Grain completely replaced", "Severe yield loss"],
       ["Immediate fungicide spray", "Destroy infected crop",
        "Multiple spray cycles", "Expert consultation"],
       ["Resistant hybrids", "Strict nitrogen control",
        "Deep ploughing", "Avoid infected fields"]⟩)]),
   ("Leaf Smut",
    [("Mild",
      ⟨["Small black streaks", "Limited spread",
        "Leaves mostly green", "Normal growth"],
       ["Monitor disease", "Remove affected leaves",
        "Light fungicide spray", "Improve airflow"],
       ["Disease-free seeds", "Balanced nutrition",
        "Proper irrigation", "Field inspection"]⟩),
     ("Moderate",
      ⟨["Increased black streaks", "Partial leaf drying",
        "Reduced photosynthesis", "Yield reduction"],
       ["Apply fungicide", "Remove infected plants",
        "Improve drainage", "Reduce humidity"],
       ["Seed treatment", "Crop rotation",
        "Soil health management", "Regular monitoring"]⟩),
     ("Severe",
      ⟨["Heavy black streaks", "Complete leaf drying",
        "Stunted growth", "Severe yield loss"],
       ["Immediate fungicide spray", "Remove infected crop",
        "Field sanitation", "Expert advice"],
       ["Resistant varieties", "Strict crop rotation",
        "Avoid infected fields", "Residue management"]⟩)]),
   ("Stem Rot",
    [("Mild",
      ⟨["Minor stem discoloration", "Small lesions at base",
        "Plants upright", "No lodging"],
       ["Improve drainage", "Avoid waterlogging",
        "Monitor plants", "Preventive fungicide"],
       ["Balanced fertilization", "Proper irrigation",
        "Crop rotation", "Field leveling"]⟩),
     ("Moderate",
      ⟨["Stem base rotting", "Lower leaf yellowing",
        "Partial lodging", "Reduced tillering"],
       ["Apply fungicide", "Improve aeration",
        "Remove infected plants", "Drain excess water"],
       ["Resistant varieties", "Organic matter control",
        "Soil health improvement", "Water management"]⟩),
     ("Severe",
      ⟨["Complete stem collapse", "Severe lodging",
        "Root decay", "Major yield loss"],
       ["Immediate fungicide", "Remove crop",
        "Field drying", "Expert consultation"],
       ["Avoid continuous rice", "Crop residue removal",
        "Deep ploughing", "Strict water control"]⟩)]),
   ("Tungro",
    [("Mild",
      ⟨["Light yellowing", "Slight stunting",
        "Few plants affected", "No yield loss"],
       ["Monitor vectors", "Remove infected plants",
        "Light insecticide spray", "Improve nutrition"],
       ["Resistant varieties", "Weed control",
        "Timely planting", "Vector monitoring"]⟩),
     ("Moderate",
      ⟨["Yellow-orange leaves", "Reduced tillering",
        "Moderate stunting", "Field spread"],
       ["Apply systemic insecticide", "Remove infected clumps",
        "Control vectors", "Correct nutrients"],
       ["Synchronised planting", "Seedling protection",
        "Vector control", "Field sanitation"]⟩),
     ("Severe",
      ⟨["Severe yellowing", "Extreme stunting",
        "Almost no grain", "Crop failure risk"],
       ["Immediate vector control", "Destroy infected crop",
        "Field quarantine", "Expert guidance"],
       ["Strict vector management", "Resistant cultivars",
        "Crop rotation", "Avoid infected nurseries"]⟩)])]

/-- Fallback entry for `DISEASE_INFO.get(disease, {}).get(severity, {...})`
in `utils/predict.py`. -/
def fallbackInfo : SeverityInfo :=
  ⟨["Information not available"], ["Consult agriculture expert"],
   ["General crop care recommended"]⟩

/-- Models `os.path.basename`, restricted to forward-slash paths: the suffix
after the last slash. -/
def basename (p : String) : String :=
  String.mk ((p.data.reverse.takeWhile (fun c => c ≠ '/')).reverse)

/-- Python `str.lower()` (ASCII case folding). -/
def pyLower (s : String) : String := String.mk (s.data.map Char.toLower)

/-- Python `str.strip()`: drop leading and trailing whitespace. -/
def pyStrip (s : String) : String :=
  String.mk
    (((s.data.dropWhile Char.isWhitespace).reverse.dropWhile
      Char.isWhitespace).reverse)

/-- Python `str.title()` on a character list: upper-case a cased character
that follows a non-cased one, lower-case the rest. -/
def titleAux : Bool → List Char → List Char
  | _, [] => []
  | prevAlpha, c :: cs =>
    (if c.isAlpha then (if prevAlpha then c.toLower else c.toUpper) else c)
      :: titleAux c.isAlpha cs

/-- Python `str.title()`. -/
def pyTitle (s : String) : String := String.mk (titleAux false s.data)

/-- Round half to even at integer precision (Python `round` semantics on
exact rationals). -/
def roundHalfEven (q : ℚ) : ℤ :=
  if q - ⌊q⌋ < 1/2 then ⌊q⌋
  else if q - ⌊q⌋ > 1/2 then ⌊q⌋ + 1
  else if ⌊q⌋ % 2 = 0 then ⌊q⌋ else ⌊q⌋ + 1

/-- Python `round(x, 2)` on exact rationals. -/
def pyRound2 (q : ℚ) : ℚ := (roundHalfEven (q * 100) : ℚ) / 100

/-- Tail of `torch.argmax` over the remaining confidences: `best` is the
index and value of the running maximum, `i` the index of the head. -/
def argmaxAux : Nat × ℚ → Nat → List ℚ → Nat
  | best, _, [] => best.1
  | best, i, c :: cs =>
    if best.2 < c then argmaxAux (i, c) (i + 1) cs else argmaxAux best (i + 1) cs

/-- Models `int(results.boxes.conf.argmax())`: index of the first maximal
confidence (0 on an empty list, which the caller rules out). -/
def argmaxConf : List ℚ → Nat
  | [] => 0
  | c :: cs => argmaxAux (0, c) 1 cs

/-- Index access `boxes[i]` with the out-of-range case mapped to a dummy box
(never reached on the paths the endpoints use). -/
def boxAt (bs : List Box) (i : Nat) : Box := bs.getD i ⟨0, 0⟩

/-- The response dictionary built by `predict_disease` in
`utils/predict.py`. -/
structure PredictResponse where
  disease : String
  confidence : ℚ
  severity : String
  lesion_count : Nat
  description : String
  symptoms : List String
  treatment : List String
  prevention : List String
  original_image : String
  result_image : String
  timestamp : String
deriving Repr, DecidableEq

/-- Embeds `predict_disease` from `utils/predict.py`. The model inference result
`r` and the timestamp `now` are explicit inputs; the second component of
the result lists the image files written (`cv2.imwrite`). -/
def predict_disease (image_path now : String) (r : YoloResults) :
    PredictResponse × List String :=
  let filename := basename image_path
  match r.boxes with
  | none =>
    (⟨"Healthy", 99, "None", 0, "Healthy rice leaf detected.", [], [],
      healthyPrevention, "/uploads/" ++ filename, "/uploads/" ++ filename,
      now⟩, [])
  | some bs =>
    if bs.length = 0 then
      (⟨"Healthy", 99, "None", 0, "Healthy rice leaf detected.", [], [],
        healthyPrevention, "/uploads/" ++ filename, "/uploads/" ++ filename,
        now⟩, [])
    else
      let box_count := bs.length
      let best_idx := argmaxConf (bs.map (fun b => b.conf))
      let cls_id := (boxAt bs best_idx).cls
      let confidence := (boxAt bs best_idx).conf * 100
      let disease := pyTitle (pyStrip (r.names cls_id))
      let severity :=
        if 7 ≤ box_count then "Severe"
        else if 3 ≤ box_count then "Moderate"
        else "Mild"
      let result_filename := "result_" ++ filename
      let info :=
        (((DISEASE_INFO.lookup disease).getD []).lookup severity).getD
          fallbackInfo
      (⟨disease, pyRound2 confidence, severity, box_count,
        disease ++ " detected with " ++ severity ++ " severity.",
        info.symptoms, info.treatment, info.prevention,
        "/uploads/" ++ filename, "/uploads/results/" ++ result_filename,
        now⟩, ["uploads/results/" ++ result_filename])

/-- Embeds `DISEASE_INFO` from `backend/utils/predict.py` (the flat
disease -> info dictionary of the JSON-file-history backend flavour). -/
def DISEASE_INFO_V2 : List (String × SeverityInfo) :=
  [("Blight",
    ⟨["Yellow-orange stripes on leaf blades", "Leaves wilt and roll up",
      "Creamy bacterial ooze", "V-shaped lesions from leaf tips"],
     ["Apply copper-based bactericides", "Remove infected leaves",
      "Avoid excessive nitrogen fertilizer"],
     ["Use certified disease-free seeds", "Ensure proper drainage",
      "Practice crop rotation"]⟩),
   ("Brown Spot",
    ⟨["Brown circular spots", "Yellow halo around lesions",
      "Reduced grain quality"],
     ["Apply Mancozeb or Carbendazim", "Improve soil nutrition"],
     ["Balanced fertilization", "Seed treatment before planting"]⟩),
   ("False Smut",
    ⟨["Green to yellow smut balls on panicles"],
     ["Apply Propiconazole fungicide"],
     ["Avoid excess nitrogen"]⟩),
   ("Healthy",
    ⟨[], [], ["Maintain proper irrigation"]⟩),
   ("Leaf Smut",
    ⟨["Black streaks on leaves"], ["Apply fungicide"],
     ["Use disease-free seeds"]⟩),
   ("Rice Blast",
    ⟨["Diamond-shaped lesions"], ["Spray Tricyclazole"],
     ["Use blast-resistant varieties"]⟩),
   ("Stem Rot",
    ⟨["Rotting of stem base"], ["Improve drainage"],
     ["Avoid waterlogging"]⟩),
   ("Tungro",
    ⟨["Yellow-orange discoloration"], ["Remove infected plants"],
     ["Control leafhopper vectors"]⟩)]

/-- The response dictionary built by `predict_disease` in
`backend/utils/predict.py` (no `lesion_count` field). -/
structure ResponseV2 where
  disease : String
  confidence : ℚ
  severity : String
  description : String
  symptoms : List String
  treatment : List String
  prevention : List String
  original_image : String
  result_image : String
  timestamp : String
deriving Repr, DecidableEq

/-- Embeds `predict_disease` from `backend/utils/predict.py`: same best-box
selection, but severity derived from the best confidence percentage
(>= 95 Severe, >= 85 Moderate, else Mild), never from the box count.
The second component lists image files written. -/
def predict_disease_v2 (image_path now : String) (r : YoloResults) :
    ResponseV2 × List String :=
  let filename := basename image_path
  match r.boxes with
  | none =>
    (⟨"Healthy", 99, "None", "No disease detected.", [], [],
      ["Maintain proper irrigation"], "/uploads/" ++ filename,
      "/uploads/" ++ filename, now⟩, [])
  | some bs =>
    if bs.length = 0 then
      (⟨"Healthy", 99, "None", "No disease detected.", [], [],
        ["Maintain proper irrigation"], "/uploads/" ++ filename,
        "/uploads/" ++ filename, now⟩, [])
    else
      let best_idx := argmaxConf (bs.map (fun b => b.conf))
      let cls_id := (boxAt bs best_idx).cls
      let confidence := (boxAt bs best_idx).conf * 100
      let disease := pyTitle (pyStrip (r.names cls_id))
      let result_filename := "result_" ++ filename
      let info := (DISEASE_INFO_V2.lookup disease).getD ⟨[], [], []⟩
      let severity :=
        if 95 ≤ confidence then "Severe"
        else if 85 ≤ confidence then "Moderate"
        else "Mild"
      (⟨disease, pyRound2 confidence, severity,
        disease ++ " detected on rice leaf.",
        info.symptoms, info.treatment, info.prevention,
        "/uploads/" ++ filename, "/uploads/results/" ++ result_filename,
        now⟩, ["uploads/results/" ++ result_filename])

/-- One row of the `detections` SQL table (`models.py`). -/
structure DetectionRow where
  id : Nat
  disease : String
  confidence : ℚ
  severity : String
  image_path : String
  result_path : String
  created_at : Nat
deriving Repr, DecidableEq

/-- Server-side mutable state touched by the endpoints: saved files,
the `detections` table, and the auto-increment counter. -/
structure ServerState where
  files : List String
  detections : List DetectionRow
  nextId : Nat
deriving Repr, DecidableEq

/-- The uploaded file as the `/detect` endpoint sees it. -/
structure UploadReq where
  filename : String
  content_type : String
  size : Nat
deriving Repr, DecidableEq

/-- A `/detect` endpoint response: either an `{"error": msg}` payload or
the prediction dictionary, with `detection_id` present only when the
database insert succeeded. -/
inductive DetectReply
  | fail (msg : String)
  | ok (resp : PredictResponse) (detection_id : Option Nat)
deriving Repr, DecidableEq

/-- The `allowed_types` list in `app.py`. -/
def allowed_types : List String := ["image/jpeg", "image/png", "image/webp"]

/-- Embeds `detect_disease` (POST `/detect`) from `app.py`. External outcomes
are explicit: `saveOk` is the file write, `yolo` is the model inference
result (`none` models an inference exception), `dbOk` the database
commit, `now`/`nowStr` the clock. -/
def detect_disease (file : UploadReq) (saveOk : Bool)
    (yolo : Option YoloResults) (dbOk : Bool) (now : Nat) (nowStr : String)
    (st : ServerState) : DetectReply × ServerState :=
  if ¬ allowed_types.contains file.content_type then
    (.fail "Only JPEG, PNG, and WebP images are allowed", st)
  else if 5 * 1024 * 1024 < file.size then
    (.fail "File size exceeds 5MB limit", st)
  else if ¬ saveOk then
    (.fail "Failed to save file", st)
  else
    let st1 := { st with files := st.files ++ ["uploads/" ++ file.filename] }
    match yolo with
    | none => (.fail "Prediction failed", st1)
    | some r =>
      let pred := predict_disease file.filename nowStr r
      let st2 := { st1 with files := st1.files ++ pred.2 }
      if dbOk then
        let row : DetectionRow :=
          ⟨st2.nextId, pred.1.disease, pred.1.confidence, pred.1.severity,
           pred.1.original_image, pred.1.result_image, now⟩
        (.ok pred.1 (some st2.nextId),
         { st2 with detections := st2.detections ++ [row],
                    nextId := st2.nextId + 1 })
      else
        (.ok pred.1 none, st2)

/-- One element of the GET `/history` response list. -/
structure HistoryEntry where
  id : Nat
  disease : String
  confidence : ℚ
  severity : String
  original_image : String
  result_image : String
  timestamp : Nat
deriving Repr, DecidableEq

/-- Insert a row into a list kept newest-first by `created_at`. -/
def insertByTime (d : DetectionRow) : List DetectionRow → List DetectionRow
  | [] => [d]
  | x :: xs =>
    if x.created_at ≤ d.created_at then d :: x :: xs
    else x :: insertByTime d xs

/-- Models `order_by(Detection.created_at.desc())`: sort newest-first. -/
def sortByNewest : List DetectionRow → List DetectionRow
  | [] => []
  | x :: xs => insertByTime x (sortByNewest xs)

/-- The reshaping of one row in `get_history`. -/
def wireOfRow (d : DetectionRow) : HistoryEntry :=
  ⟨d.id, d.disease, d.confidence, d.severity, d.image_path, d.result_path,
   d.created_at⟩

/-- Embeds `get_history` (GET `/history`) from `app.py`. -/
def get_history (store : List DetectionRow) : List HistoryEntry :=
  (sortByNewest store).map wireOfRow

/-- A `/delete/{id}` endpoint response: success payload or an
`HTTPException` with its status code. -/
inductive DeleteReply
  | ok (msg : String)
  | httpError (code : Nat) (detail : String)
deriving Repr, DecidableEq

/-- Embeds `delete_detection` (DELETE endpoint) from `app.py`: find the
first row with the given id (404 if none), remove it, then best-effort
delete its two image files — `fileOpsOk = false` models an exception
during the file removals, which is caught and does not affect the row
deletion. Returns the reply, the new table, and the new file list. -/
def delete_detection (detection_id : Nat) (store : List DetectionRow)
    (fs : List String) (fileOpsOk : Bool) :
    DeleteReply × List DetectionRow × List String :=
  match store.find? (fun d => d.id == detection_id) with
  | none => (.httpError 404 "Detection not found", store, fs)
  | some d =>
    let store1 := store.eraseP (fun x => x.id == detection_id)
    let fs1 :=
      if fileOpsOk then (fs.erase d.image_path).erase d.result_path else fs
    (.ok "Detection deleted successfully", store1, fs1)

/-- Python substring test `needle in haystack` on character lists. -/
def subIn (needle haystack : List Char) : Bool :=
  haystack.tails.any (fun t => needle.isPrefixOf t)

/-- Python substring test `needle in haystack` on strings. -/
def strIn (needle haystack : String) : Bool := subIn needle.data haystack.data

/-- Models `data["message"].lower().strip()` in `chatbot_response`. -/
def normMsg (m : String) : String := pyStrip (pyLower m)

/-- The list `diseases = list(DISEASE_INFO.keys())` in `chatbot_response`. -/
def diseases : List String := DISEASE_INFO.map Prod.fst

/-- The first disease whose lower-cased name occurs in the message
(`detected_disease` in `chatbot_response`). -/
def detectDisease (um : String) : Option String :=
  diseases.find? (fun d => strIn (pyLower d) um)

/-- The `intents` dictionary in `chatbot_response`, in insertion order. -/
def intents : List (String × List String) :=
  [("symptoms", ["symptom", "sign", "look like", "appear", "show"]),
   ("treatment", ["treat", "cure", "medicine", "fix", "heal"]),
   ("prevention", ["prevent", "avoid", "stop", "protect", "safe"]),
   ("severity", ["severity", "level", "bad", "serious", "worse"])]

/-- The first intent one of whose keywords occurs in the message
(`detected_intent` in `chatbot_response`). -/
def detectIntent (um : String) : Option String :=
  (intents.find? (fun p => p.2.any (fun k => strIn k um))).map Prod.fst

/-- The canned fallback of `chatbot_response`. -/
def notAvailableMsg : String :=
  "Information is not available. Please consult an agricultural expert."

/-- Embeds `chatbot_response` (POST `/chatbot`) from `app.py`. Returns `none`
only on a Python `KeyError`/`IndexError` path, which the concrete
`DISEASE_INFO` never reaches. -/
def chatbot_response (message : String) : Option String :=
  let um := normMsg message
  match detectDisease um with
  | none =>
    some "I can help only with rice leaf diseases. Please specify the disease name."
  | some d =>
    match detectIntent um with
    | none =>
      some "Please ask about symptoms, treatment, prevention, or severity of the disease."
    | some intent =>
      match DISEASE_INFO.lookup d with
      | none => none
      | some dd =>
        match
          (if (dd.map Prod.fst).contains "High" then some "High"
           else (dd.map Prod.fst).head?) with
        | none => none
        | some severity =>
          match dd.lookup severity with
          | none => none
          | some info =>
            match infoGet info intent with
            | some l =>
              if l = [] then some notAvailableMsg
              else
                some ("For " ++ d ++ " (" ++ severity ++ " severity): " ++
                  String.intercalate ", " l)
            | none => some notAvailableMsg

/-- The severity key `chatbot_response` selects for a disease:
`"High"` if present, else the first key of the per-disease dictionary. -/
def severityKeyOf (d : String) : Option String :=
  (DISEASE_INFO.lookup d).bind (fun dd =>
    if (dd.map Prod.fst).contains "High" then some "High"
    else (dd.map Prod.fst).head?)

/-- The text list `chatbot_response` would join for a disease and an
intent: the full lookup chain through `DISEASE_INFO`. -/
def intentListOf (d intent : String) : Option (List String) :=
  (DISEASE_INFO.lookup d).bind (fun dd =>
    (severityKeyOf d).bind (fun sev =>
      (dd.lookup sev).bind (fun info => infoGet info intent)))

/-- Example inference result: 8 boxes, class 0, the second box at 92%
confidence and all others at 50%; class 0 is named `rice blast`. -/
def exBoxes : List Box :=
  [⟨0, 1/2⟩, ⟨0, 92/100⟩, ⟨0, 1/2⟩, ⟨0, 1/2⟩, ⟨0, 1/2⟩, ⟨0, 1/2⟩,
   ⟨0, 1/2⟩, ⟨0, 1/2⟩]

/-- Example inference result wrapper for `exBoxes`. -/
def exYolo : YoloResults := ⟨some exBoxes, fun _ => "rice blast"⟩

/-- Example inference result with no detections. -/
def emptyYolo : YoloResults := ⟨none, fun _ => "rice blast"⟩

/-- Example detection rows and store for the delete/history theorems. -/
def exRow : DetectionRow :=
  ⟨1, "Rice Blast", 92, "Severe", "/uploads/a.jpg",
   "/uploads/results/result_a.jpg", 5⟩

/-- A second example detection row. -/
def exRow2 : DetectionRow :=
  ⟨2, "Healthy", 99, "None", "/uploads/b.jpg", "/uploads/b.jpg", 7⟩

/-- Example detection store. -/
def exStore : List DetectionRow := [exRow, exRow2]

/-- Example empty server state. -/
def exState : ServerState := ⟨[], [], 1⟩

/-- Example valid upload request. -/
def exUpload : UploadReq := ⟨"leaf.jpg", "image/jpeg", 1000⟩

/-- Example upload request with a non-image content type. -/
def badUpload : UploadReq := ⟨"leaf.txt", "text/plain", 1000⟩

lemma argmaxAux_of_le (l : List ℚ) :
    ∀ (bi i : Nat) (bv : ℚ), (∀ k, k < l.length → l.getD k 0 ≤ bv) →
      argmaxAux (bi, bv) i l = bi := by
  induction l with
  | nil => intro bi i bv _; rfl
  | cons c cs ih =>
    intro bi i bv h
    have h0 : c ≤ bv := by simpa using h 0 (by simp)
    have : ¬ bv < c := not_lt.mpr h0
    simp only [argmaxAux, this, if_false]
    exact ih bi (i + 1) bv (fun k hk => by
      simpa using h (k + 1) (by simpa using Nat.succ_lt_succ hk))

lemma argmaxAux_pick (l : List ℚ) :
    ∀ (bi i j : Nat) (bv : ℚ), j < l.length → bv < l.getD j 0 →
      (∀ k, k < l.length → k ≠ j → l.getD k 0 < l.getD j 0) →
      argmaxAux (bi, bv) i l = i + j := by
  induction l with
  | nil => intro bi i j bv hj _ _; exact absurd hj (by simp)
  | cons c cs ih =>
    intro bi i j bv hj hbv hmax
    cases j with
    | zero =>
      have hc : bv < c := by simpa using hbv
      simp only [argmaxAux, hc, if_true]
      have := argmaxAux_of_le cs i (i + 1) c (fun k hk => by
        have := hmax (k + 1) (by simpa using Nat.succ_lt_succ hk) (by simp)
        simpa using le_of_lt this)
      simpa using this
    | succ jj =>
      have hjj : jj < cs.length := by simpa using Nat.lt_of_succ_lt_succ hj
      have htv : bv < cs.getD jj 0 := by simpa using hbv
      have hc : c < cs.getD jj 0 := by
        simpa using hmax 0 (by simp) (Nat.zero_ne_add_one jj)
      have hshift : ∀ k, k < cs.length → k ≠ jj →
          cs.getD k 0 < cs.getD jj 0 := by
        intro k hk hkj
        simpa using hmax (k + 1) (by simpa using Nat.succ_lt_succ hk)
          (fun e => hkj (Nat.succ_injective e))
      by_cases hbc : bv < c
      · simp only [argmaxAux, hbc, if_true]
        have := ih i (i + 1) jj c hjj hc hshift
        omega
      · simp only [argmaxAux, hbc, if_false]
        have := ih bi (i + 1) jj bv hjj htv hshift
        omega

lemma argmaxConf_eq_of_strict_max (l : List ℚ) (i : Nat) (hi : i < l.length)
    (hmax : ∀ j, j < l.length → j ≠ i → l.getD j 0 < l.getD i 0) :
    argmaxConf l = i := by
  cases l with
  | nil => exact absurd hi (by simp)
  | cons c cs =>
    cases i with
    | zero =>
      simp only [argmaxConf]
      exact argmaxAux_of_le cs 0 1 c (fun k hk => by
        have := hmax (k + 1) (by simpa using Nat.succ_lt_succ hk) (by simp)
        simpa using le_of_lt this)
    | succ ii =>
      have hii : ii < cs.length := by simpa using Nat.lt_of_succ_lt_succ hi
      have hc : c < cs.getD ii 0 := by
        simpa using hmax 0 (by simp) (Nat.zero_ne_add_one ii)
      have hshift : ∀ k, k < cs.length → k ≠ ii →
          cs.getD k 0 < cs.getD ii 0 := by
        intro k hk hkj
        simpa using hmax (k + 1) (by simpa using Nat.succ_lt_succ hk)
          (fun e => hkj (Nat.succ_injective e))
      simp only [argmaxConf]
      have := argmaxAux_pick cs 0 1 ii c hii hc hshift
      omega

lemma getD_map_conf : ∀ (bs : List Box) (j : Nat), j < bs.length →
    (bs.map (fun b => b.conf)).getD j 0 = (boxAt bs j).conf := by
  intro bs
  induction bs with
  | nil => intro j hj; exact absurd hj (by simp)
  | cons b rest ih =>
    intro j hj
    cases j with
    | zero => rfl
    | succ jj =>
      have := ih jj (by simpa using Nat.lt_of_succ_lt_succ hj)
      simpa [boxAt] using this


lemma v1_fields_eval (image_path now : String) (r : YoloResults)
    (bs : List Box) (hb : r.boxes = some bs) (hlen : ¬ bs.length = 0) :
    (predict_disease image_path now r).1.disease =
      pyTitle (pyStrip
        (r.names (boxAt bs (argmaxConf (bs.map (fun b => b.conf)))).cls)) ∧
    (predict_disease image_path now r).1.confidence =
      pyRound2
        ((boxAt bs (argmaxConf (bs.map (fun b => b.conf)))).conf * 100) ∧
    (predict_disease image_path now r).1.severity =
      (if 7 ≤ bs.length then "Severe"
       else if 3 ≤ bs.length then "Moderate" else "Mild") := by
  simp only [predict_disease, hb]
  rw [if_neg hlen]
  exact ⟨rfl, rfl, rfl⟩

lemma v2_severity_eval (image_path now : String) (r : YoloResults)
    (bs : List Box) (hb : r.boxes = some bs) (hlen : ¬ bs.length = 0) :
    (predict_disease_v2 image_path now r).1.severity =
      (if 95 ≤ (boxAt bs (argmaxConf (bs.map (fun b => b.conf)))).conf * 100
       then "Severe"
       else if 85 ≤ (boxAt bs
          (argmaxConf (bs.map (fun b => b.conf)))).conf * 100
       then "Moderate" else "Mild") := by
  simp only [predict_disease_v2, hb]
  rw [if_neg hlen]

lemma exBoxes_hmax : ∀ j, j < exBoxes.length → j ≠ 1 →
    (boxAt exBoxes j).conf < (boxAt exBoxes 1).conf := by
  intro j hj hne
  have h8 : j < 8 := by simpa [exBoxes] using hj
  interval_cases j
  · show (1:ℚ)/2 < 92/100; norm_num
  · exact absurd rfl hne
  · show (1:ℚ)/2 < 92/100; norm_num
  · show (1:ℚ)/2 < 92/100; norm_num
  · show (1:ℚ)/2 < 92/100; norm_num
  · show (1:ℚ)/2 < 92/100; norm_num
  · show (1:ℚ)/2 < 92/100; norm_num
  · show (1:ℚ)/2 < 92/100; norm_num

lemma exBoxes_argmax : argmaxConf (exBoxes.map (fun b => b.conf)) = 1 := by
  apply argmaxConf_eq_of_strict_max
  · show 1 < (exBoxes.map (fun b => b.conf)).length
    simp [exBoxes]
  · intro j hj hne
    have hj2 : j < exBoxes.length := by simpa [exBoxes] using hj
    rw [getD_map_conf exBoxes j hj2,
      getD_map_conf exBoxes 1 (by simp [exBoxes])]
    exact exBoxes_hmax j hj2 hne

lemma exBoxes_conf1 : (boxAt exBoxes 1).conf = 92/100 := rfl

/-- C1 (amended): in the primary model wrapper (`utils/predict.py`, the
one `app.py` imports), the severity of a non-empty detection is a
deterministic function of the box count alone: 7 or more boxes yields
Severe, 3 to 6 yields Moderate, fewer than 3 yields Mild. In the
alternate backend flavour (`backend/utils/predict.py`) severity is
instead a deterministic function of the best-box confidence percentage:
at least 95 yields Severe, at least 85 yields Moderate, else Mild —
independent of the box count. -/
theorem severity_policy_by_variant (image_path now : String)
    (r : YoloResults) (bs : List Box) (hb : r.boxes = some bs)
    (hne : bs ≠ []) :
    ((7 ≤ bs.length →
        (predict_disease image_path now r).1.severity = "Severe") ∧
     (3 ≤ bs.length → bs.length < 7 →
        (predict_disease image_path now r).1.severity = "Moderate") ∧
     (bs.length < 3 →
        (predict_disease image_path now r).1.severity = "Mild")) ∧
    ((95 ≤ (boxAt bs (argmaxConf (bs.map (fun b => b.conf)))).conf * 100 →
        (predict_disease_v2 image_path now r).1.severity = "Severe") ∧
     ((boxAt bs (argmaxConf (bs.map (fun b => b.conf)))).conf * 100 < 95 →
      85 ≤ (boxAt bs (argmaxConf (bs.map (fun b => b.conf)))).conf * 100 →
        (predict_disease_v2 image_path now r).1.severity = "Moderate") ∧
     ((boxAt bs (argmaxConf (bs.map (fun b => b.conf)))).conf * 100 < 85 →
        (predict_disease_v2 image_path now r).1.severity = "Mild")) := by
  have hlen : ¬ bs.length = 0 := by simpa using hne
  have h1 := (v1_fields_eval image_path now r bs hb hlen).2.2
  have h2 := v2_severity_eval image_path now r bs hb hlen
  constructor
  · refine ⟨fun h7 => ?_, fun h3 h7 => ?_, fun h3 => ?_⟩
    · rw [h1, if_pos h7]
    · rw [h1, if_neg (by omega), if_pos h3]
    · rw [h1, if_neg (by omega), if_neg (by omega)]
  · refine ⟨fun h95 => ?_, fun h95 h85 => ?_, fun h85 => ?_⟩
    · rw [h2, if_pos h95]
    · rw [h2, if_neg (not_le.mpr h95), if_pos h85]
    · rw [h2, if_neg (not_le.mpr (lt_of_lt_of_le h85 (by norm_num))),
        if_neg (not_le.mpr h85)]

/-- C1 witness: on the concrete 8-box input with best confidence 92%,
the primary wrapper reports Severe (8 >= 7 boxes) while the alternate
backend flavour reports Moderate (85 <= 92 < 95). -/
theorem severity_policy_by_variant_witness :
    (predict_disease "leaf.jpg" "t" exYolo).1.severity = "Severe" ∧
    (predict_disease_v2 "leaf.jpg" "t" exYolo).1.severity = "Moderate" := by
  have h := severity_policy_by_variant "leaf.jpg" "t" exYolo exBoxes rfl
    (by simp [exBoxes])
  refine ⟨h.1.1 (by simp [exBoxes]), h.2.2.1 ?_ ?_⟩
  · rw [exBoxes_argmax, exBoxes_conf1]; norm_num
  · rw [exBoxes_argmax, exBoxes_conf1]; norm_num

/-- C1 counterexample: the repository also contains
`backend/utils/predict.py`, whose `predict_disease` computes severity
from confidence, not box count: on an input with 8 boxes (where the
box-count rule would demand Severe) and best confidence 92%, it reports
Moderate. -/
theorem severity_v2_ignores_box_count :
    (exYolo.boxes.getD []).length = 8 ∧
    (predict_disease_v2 "leaf.jpg" "t" exYolo).1.severity = "Moderate" ∧
    (predict_disease_v2 "leaf.jpg" "t" exYolo).1.severity ≠ "Severe" := by
  have h := v2_severity_eval "leaf.jpg" "t" exYolo exBoxes rfl
    (by simp [exBoxes])
  rw [exBoxes_argmax, exBoxes_conf1] at h
  rw [if_neg (by norm_num), if_pos (by norm_num)] at h
  exact ⟨rfl, h, by rw [h]; decide⟩

/-- C2: on an image with zero detection boxes, `predict_disease`
(`utils/predict.py`) returns disease Healthy, confidence 99.0, severity
None, empty symptoms and treatment lists, a result-image path equal to
the original-image path, and writes no annotated image file. -/
theorem predict_zero_boxes (image_path now : String) (r : YoloResults)
    (hb : r.boxes = none ∨ r.boxes = some []) :
    (predict_disease image_path now r).1.disease = "Healthy" ∧
    (predict_disease image_path now r).1.confidence = 99 ∧
    (predict_disease image_path now r).1.severity = "None" ∧
    (predict_disease image_path now r).1.symptoms = [] ∧
    (predict_disease image_path now r).1.treatment = [] ∧
    (predict_disease image_path now r).1.result_image =
      (predict_disease image_path now r).1.original_image ∧
    (predict_disease image_path now r).2 = [] := by
  rcases hb with h | h <;> simp [predict_disease, h]

/-- C2 witness: the zero-box example input. -/
theorem predict_zero_boxes_witness :
    (predict_disease "leaf.jpg" "t" emptyYolo).1.disease = "Healthy" ∧
    (predict_disease "leaf.jpg" "t" emptyYolo).1.confidence = 99 ∧
    (predict_disease "leaf.jpg" "t" emptyYolo).1.severity = "None" ∧
    (predict_disease "leaf.jpg" "t" emptyYolo).1.symptoms = [] ∧
    (predict_disease "leaf.jpg" "t" emptyYolo).1.treatment = [] ∧
    (predict_disease "leaf.jpg" "t" emptyYolo).1.result_image =
      (predict_disease "leaf.jpg" "t" emptyYolo).1.original_image ∧
    (predict_disease "leaf.jpg" "t" emptyYolo).2 = [] :=
  predict_zero_boxes "leaf.jpg" "t" emptyYolo (Or.inl rfl)

/-- C3: when the detection list is non-empty, the reported disease label
and confidence come from the box of (strictly) maximum confidence, and
with 7 or more boxes the severity is Severe; instantiated below at the
8-box, Rice Blast, 92% example. -/
theorem best_box_reported (image_path now : String) (r : YoloResults)
    (bs : List Box) (i : Nat) (hb : r.boxes = some bs) (hi : i < bs.length)
    (hmax : ∀ j, j < bs.length → j ≠ i →
      (boxAt bs j).conf < (boxAt bs i).conf) :
    (predict_disease image_path now r).1.disease =
      pyTitle (pyStrip (r.names (boxAt bs i).cls)) ∧
    (predict_disease image_path now r).1.confidence =
      pyRound2 ((boxAt bs i).conf * 100) ∧
    (7 ≤ bs.length →
      (predict_disease image_path now r).1.severity = "Severe") := by
  have hlen : ¬ bs.length = 0 := by omega
  have hargs : argmaxConf (bs.map (fun b => b.conf)) = i := by
    apply argmaxConf_eq_of_strict_max _ _ (by simpa using hi)
    intro j hj hne
    have hj2 : j < bs.length := by simpa using hj
    rw [getD_map_conf bs j hj2, getD_map_conf bs i hi]
    exact hmax j hj2 hne
  have h := v1_fields_eval image_path now r bs hb hlen
  rw [hargs] at h
  exact ⟨h.1, h.2.1, fun h7 => by rw [h.2.2, if_pos h7]⟩

/-- C3 witness: the 8-box input whose top box is class `rice blast` at
92% — disease Rice Blast, severity Severe, confidence 92.0. -/
theorem best_box_reported_witness :
    (predict_disease "leaf.jpg" "t" exYolo).1.disease = "Rice Blast" ∧
    (predict_disease "leaf.jpg" "t" exYolo).1.confidence = 92 ∧
    (predict_disease "leaf.jpg" "t" exYolo).1.severity = "Severe" := by
  have h := best_box_reported "leaf.jpg" "t" exYolo exBoxes 1 rfl
    (by simp [exBoxes]) exBoxes_hmax
  refine ⟨h.1.trans (by decide), h.2.1.trans ?_, h.2.2 (by simp [exBoxes])⟩
  rw [exBoxes_conf1]
  norm_num [pyRound2, roundHalfEven]


lemma length_insertByTime (d : DetectionRow) :
    ∀ l : List DetectionRow, (insertByTime d l).length = l.length + 1 := by
  intro l
  induction l with
  | nil => rfl
  | cons x xs ih =>
    by_cases h : x.created_at ≤ d.created_at <;>
      simp [insertByTime, h, ih]

lemma length_sortByNewest : ∀ l : List DetectionRow,
    (sortByNewest l).length = l.length := by
  intro l
  induction l with
  | nil => rfl
  | cons x xs ih => simp [sortByNewest, length_insertByTime, ih]

lemma length_get_history (store : List DetectionRow) :
    (get_history store).length = store.length := by
  simp [get_history, length_sortByNewest]

lemma mem_eraseP_of_not {α : Type} {p : α → Bool} :
    ∀ {l : List α} {x : α}, x ∈ l → p x = false → x ∈ l.eraseP p := by
  intro l
  induction l with
  | nil => intro x hx _; cases hx
  | cons a as ih =>
    intro x hx hp
    by_cases hpa : p a
    · rw [List.eraseP_cons_of_pos hpa]
      rcases List.mem_cons.mp hx with rfl | hxs
      · rw [hp] at hpa; cases hpa
      · exact hxs
    · rw [List.eraseP_cons_of_neg (by simpa using hpa)]
      rcases List.mem_cons.mp hx with rfl | hxs
      · exact List.mem_cons_self _ _
      · exact List.mem_cons_of_mem _ (ih hxs hp)

lemma eraseP_id_ne (detection_id : Nat) :
    ∀ store : List DetectionRow, (store.map (fun d => d.id)).Nodup →
      ∀ x ∈ store.eraseP (fun d => d.id == detection_id),
        x.id ≠ detection_id := by
  intro store
  induction store with
  | nil => intro _ x hx; simp at hx
  | cons d rest ih =>
    intro hnd x hx
    rw [List.map_cons, List.nodup_cons] at hnd
    by_cases hpd : (d.id == detection_id) = true
    · rw [@List.eraseP_cons_of_pos _ d rest
        (fun y : DetectionRow => y.id == detection_id) hpd] at hx
      intro he
      have hde : d.id = detection_id := by simpa using hpd
      exact hnd.1 (by rw [hde, ← he]; exact List.mem_map_of_mem _ hx)
    · rw [@List.eraseP_cons_of_neg _ d rest
        (fun y : DetectionRow => y.id == detection_id) hpd] at hx
      rcases List.mem_cons.mp hx with rfl | hxs
      · simpa using hpd
      · exact ih hnd.2 x hxs

/-- C4: a `/detect` request whose content type is outside the allowed
image types, or whose payload exceeds the 5 MB ceiling, gets an error
payload and leaves the server state (saved files, detection rows,
id counter) completely unchanged — no upload saved, no inference run,
no row inserted. -/
theorem detect_rejects_invalid (file : UploadReq) (saveOk : Bool)
    (yolo : Option YoloResults) (dbOk : Bool) (now : Nat) (nowStr : String)
    (st : ServerState)
    (h : file.content_type ∉ allowed_types ∨
      5 * 1024 * 1024 < file.size) :
    (∃ msg, (detect_disease file saveOk yolo dbOk now nowStr st).1 =
      DetectReply.fail msg) ∧
    (detect_disease file saveOk yolo dbOk now nowStr st).2 = st := by
  rcases h with h | h
  · refine ⟨⟨"Only JPEG, PNG, and WebP images are allowed", ?_⟩, ?_⟩ <;>
      simp [detect_disease, h]
  · by_cases hc : file.content_type ∈ allowed_types
    · refine ⟨⟨"File size exceeds 5MB limit", ?_⟩, ?_⟩ <;>
        simp [detect_disease, hc, h]
    · refine ⟨⟨"Only JPEG, PNG, and WebP images are allowed", ?_⟩, ?_⟩ <;>
        simp [detect_disease, hc]

/-- C4 witness: a `text/plain` upload is rejected and the state stays
as it was. -/
theorem detect_rejects_invalid_witness :
    (∃ msg, (detect_disease badUpload true none true 0 "t" exState).1 =
      DetectReply.fail msg) ∧
    (detect_disease badUpload true none true 0 "t" exState).2 = exState :=
  detect_rejects_invalid badUpload true none true 0 "t" exState
    (Or.inl (by decide))

/-- C5: when validation, file save and inference succeed but the
database insert fails, `/detect` still returns the full prediction
result — with no `detection_id` — and no detection row is added. -/
theorem detect_db_failure_returns_result (file : UploadReq)
    (r : YoloResults) (now : Nat) (nowStr : String) (st : ServerState)
    (hct : file.content_type ∈ allowed_types)
    (hsz : file.size ≤ 5 * 1024 * 1024) :
    (detect_disease file true (some r) false now nowStr st).1 =
      DetectReply.ok (predict_disease file.filename nowStr r).1 none ∧
    (detect_disease file true (some r) false now nowStr st).2.detections =
      st.detections := by
  constructor <;> simp [detect_disease, hct, Nat.not_lt.mpr hsz]

/-- C5 witness: a valid upload with a failing database commit. -/
theorem detect_db_failure_returns_result_witness :
    (detect_disease exUpload true (some emptyYolo) false 0 "t" exState).1 =
      DetectReply.ok (predict_disease "leaf.jpg" "t" emptyYolo).1 none ∧
    (detect_disease exUpload true (some emptyYolo) false 0 "t"
      exState).2.detections = exState.detections :=
  detect_db_failure_returns_result exUpload emptyYolo 0 "t" exState
    (by decide) (by decide)

/-- C6: deleting a detection id absent from the store yields the 404
not-found error and leaves both the detection table and the file system
exactly unchanged. -/
theorem delete_unknown_id_404 (detection_id : Nat)
    (store : List DetectionRow) (fs : List String) (fileOpsOk : Bool)
    (h : ∀ d ∈ store, d.id ≠ detection_id) :
    delete_detection detection_id store fs fileOpsOk =
      (DeleteReply.httpError 404 "Detection not found", store, fs) := by
  have hf : store.find? (fun d => d.id == detection_id) = none := by
    rw [List.find?_eq_none]
    intro x hx
    simpa using h x hx
  simp [delete_detection, hf]

/-- C6 witness: deleting id 99 from the two-row example store. -/
theorem delete_unknown_id_404_witness :
    delete_detection 99 exStore ["f"] true =
      (DeleteReply.httpError 404 "Detection not found", exStore, ["f"]) :=
  delete_unknown_id_404 99 exStore ["f"] true (by decide)

/-- C7: deleting an id present in the store (ids unique, as the primary
key guarantees) succeeds, removes exactly that row — every other row
survives and every surviving row is an original row with a different
id — shortens the `/history` list by exactly one, and the row deletion
is unaffected by failure of the best-effort image-file removals. -/
theorem delete_existing_id (detection_id : Nat) (store : List DetectionRow)
    (fs : List String) (fileOpsOk : Bool)
    (hmem : detection_id ∈ store.map (fun d => d.id))
    (hnd : (store.map (fun d => d.id)).Nodup) :
    (delete_detection detection_id store fs fileOpsOk).1 =
      DeleteReply.ok "Detection deleted successfully" ∧
    (get_history
        (delete_detection detection_id store fs fileOpsOk).2.1).length + 1 =
      (get_history store).length ∧
    (∀ x ∈ store, x.id ≠ detection_id →
      x ∈ (delete_detection detection_id store fs fileOpsOk).2.1) ∧
    (∀ x ∈ (delete_detection detection_id store fs fileOpsOk).2.1,
      x ∈ store ∧ x.id ≠ detection_id) ∧
    (delete_detection detection_id store fs false).2.1 =
      (delete_detection detection_id store fs true).2.1 := by
  obtain ⟨d, hd, hpd⟩ :
      ∃ d, d ∈ store ∧ (d.id == detection_id) = true := by
    rcases List.mem_map.mp hmem with ⟨d, hd, hid⟩
    exact ⟨d, hd, by simpa using hid⟩
  obtain ⟨d0, hf⟩ :
      ∃ d0, store.find? (fun d => d.id == detection_id) = some d0 := by
    cases hfe : store.find? (fun d => d.id == detection_id) with
    | none =>
      exact absurd hpd (by simpa using List.find?_eq_none.mp hfe d hd)
    | some d0 => exact ⟨d0, rfl⟩
  have hunfold : ∀ ok : Bool, delete_detection detection_id store fs ok =
      (DeleteReply.ok "Detection deleted successfully",
       store.eraseP (fun x => x.id == detection_id),
       if ok then (fs.erase d0.image_path).erase d0.result_path else fs) := by
    intro ok
    simp only [delete_detection, hf]
  refine ⟨?_, ?_, ?_, ?_, ?_⟩
  · simp [hunfold]
  · simp only [hunfold]
    rw [length_get_history, length_get_history,
      List.length_eraseP_of_mem hd hpd]
    have : 0 < store.length := List.length_pos.mpr (List.ne_nil_of_mem hd)
    omega
  · intro x hx hne
    simp only [hunfold]
    exact mem_eraseP_of_not hx (by simpa using hne)
  · intro x hx
    simp only [hunfold] at hx
    exact ⟨(List.eraseP_sublist _).subset hx,
      eraseP_id_ne detection_id store hnd x hx⟩
  · simp [hunfold]

/-- C7 witness: deleting id 1 from the two-row example store. -/
theorem delete_existing_id_witness :
    (delete_detection 1 exStore ["f"] true).1 =
      DeleteReply.ok "Detection deleted successfully" ∧
    (get_history (delete_detection 1 exStore ["f"] true).2.1).length + 1 =
      (get_history exStore).length ∧
    (∀ x ∈ exStore, x.id ≠ 1 →
      x ∈ (delete_detection 1 exStore ["f"] true).2.1) ∧
    (∀ x ∈ (delete_detection 1 exStore ["f"] true).2.1,
      x ∈ exStore ∧ x.id ≠ 1) ∧
    (delete_detection 1 exStore ["f"] false).2.1 =
      (delete_detection 1 exStore ["f"] true).2.1 :=
  delete_existing_id 1 exStore ["f"] true (by decide) (by decide)


/-- C8: a chatbot message in which no known disease name occurs (after
lower-casing and stripping) gets the default clarification asking for
the disease name — whatever intent keywords it contains. -/
theorem chatbot_default_no_disease (m : String)
    (h : ∀ d ∈ diseases, strIn (pyLower d) (normMsg m) = false) :
    chatbot_response m =
      some "I can help only with rice leaf diseases. Please specify the disease name." := by
  have hd : detectDisease (normMsg m) = none := by
    rw [detectDisease, List.find?_eq_none]
    intro d hdm
    simp [h d hdm]
  simp [chatbot_response, hd]

/-- C8 witness: `how to treat my crop` contains the intent keyword
`treat` but no disease name, and still gets the default clarification. -/
theorem chatbot_default_no_disease_witness :
    chatbot_response "how to treat my crop" =
      some "I can help only with rice leaf diseases. Please specify the disease name." :=
  chatbot_default_no_disease "how to treat my crop" (by decide)

/-- C10: whenever a disease is detected and the matched intent is
`severity`, the chatbot answers with the fixed not-available message:
no per-severity info dictionary carries a `severity` key, and no
per-disease dictionary carries a `High` key. -/
theorem chatbot_severity_intent_unanswerable (m d : String)
    (hd : detectDisease (normMsg m) = some d)
    (hi : detectIntent (normMsg m) = some "severity") :
    chatbot_response m = some notAvailableMsg ∧
    (∀ p ∈ DISEASE_INFO, ((p.2.map Prod.fst).contains "High") = false) := by
  refine ⟨?_, by decide⟩
  have hdm : d ∈ diseases := List.mem_of_find?_eq_some hd
  rw [show diseases = ["Healthy", "Rice Blast", "Blight", "Brown Spot",
    "False Smut", "Leaf Smut", "Stem Rot", "Tungro"] from rfl] at hdm
  fin_cases hdm <;>
    · simp only [chatbot_response]
      rw [hd, hi]
      rfl

/-- C10 witness: `how bad is tungro` matches disease Tungro and the
severity intent (keyword `bad`) and gets the not-available message. -/
theorem chatbot_severity_intent_unanswerable_witness :
    chatbot_response "how bad is tungro" = some notAvailableMsg ∧
    (∀ p ∈ DISEASE_INFO, ((p.2.map Prod.fst).contains "High") = false) :=
  chatbot_severity_intent_unanswerable "how bad is tungro" "Tungro"
    (by decide) (by decide)

/-- C9 (amended): when a message matches a disease and an intent whose
text list exists and is non-empty under the selected severity key, the
reply is the joined string prefixed by the disease name and severity
key; when the selected entry has no such non-empty list (the severity
intent always, and the empty Healthy lists), the reply is instead the
fixed not-available message, so it does not carry the disease-name
prefix. -/
theorem chatbot_joined_reply (m d intent sev : String) (l : List String)
    (hd : detectDisease (normMsg m) = some d)
    (hi : detectIntent (normMsg m) = some intent)
    (hs : severityKeyOf d = some sev)
    (hl : intentListOf d intent = some l)
    (hne : l ≠ []) :
    chatbot_response m =
      some ("For " ++ d ++ " (" ++ sev ++ " severity): " ++
        String.intercalate ", " l) := by
  cases hdd : DISEASE_INFO.lookup d with
  | none =>
    rw [severityKeyOf, hdd] at hs
    cases hs
  | some dd =>
    have hs2 : (if (dd.map Prod.fst).contains "High" then some "High"
        else (dd.map Prod.fst).head?) = some sev := by
      rw [severityKeyOf, hdd] at hs
      simpa using hs
    have hl2 : (dd.lookup sev).bind (fun info => infoGet info intent) =
        some l := by
      rw [intentListOf, hdd] at hl
      simp only [Option.some_bind] at hl
      rw [hs] at hl
      simpa using hl
    cases hinfo : dd.lookup sev with
    | none =>
      rw [hinfo] at hl2
      cases hl2
    | some info =>
      rw [hinfo] at hl2
      simp only [Option.some_bind] at hl2
      simp only [chatbot_response, hd, hi, hdd, hs2, hinfo, hl2]
      rw [if_neg hne]

/-- C9 witness: `What are the symptoms of brown spot` gets the joined
Brown Spot (Mild) symptom list, a reply beginning with
`For Brown Spot`. -/
theorem chatbot_joined_reply_witness :
    chatbot_response "What are the symptoms of brown spot" =
      some "For Brown Spot (Mild severity): Small brown spots, Yellow halos, No grain impact, Normal growth" ∧
    (List.isPrefixOf ("For Brown Spot").data
      ("For Brown Spot (Mild severity): Small brown spots, Yellow halos, No grain impact, Normal growth").data) = true := by
  refine ⟨?_, by decide⟩
  exact (chatbot_joined_reply "What are the symptoms of brown spot"
    "Brown Spot" "symptoms" "Mild"
    ["Small brown spots", "Yellow halos", "No grain impact", "Normal growth"]
    (by decide) (by decide) (by decide) (by decide) (by decide)).trans
    (by decide)

/-- C9 counterexample: `how bad is tungro` contains the disease name
Tungro and the intent keyword `bad`, yet the reply is the fixed
not-available message, which is not the joined text list and does not
begin with `For Tungro`. -/
theorem chatbot_intent_reply_not_always_joined :
    detectDisease (normMsg "how bad is tungro") = some "Tungro" ∧
    detectIntent (normMsg "how bad is tungro") = some "severity" ∧
    chatbot_response "how bad is tungro" = some notAvailableMsg ∧
    (List.isPrefixOf ("For Tungro").data notAvailableMsg.data) = false := by
  refine ⟨by decide, by decide, by decide, by decide⟩

end RiceGuard
